import Mathlib

/-!
Verification model of the `imap_mcp_server` package: the filesystem mailbox
store, the credential verifier, the message pipeline, the IMAP protocol codec
and the per-connection session state machine, shallowly embedded from the
Python sources under `src/imap_mcp_server/`.
-/

namespace ImapMcpServer

/-! ### Mailbox store (mirrors `mailbox_store/filesystem.py`) -/

/-- Raw message bytes (each entry one byte value). -/
abbrev Bytes := List Nat

/-- One mailbox directory: its `.metadata.json` contents (`uidnext`,
`uidvalidity`) together with the `{uid}.eml` message files inside it. -/
structure MailboxData where
  uidnext : Nat
  uidvalidity : Nat
  messages : List (Nat × Bytes)
  deriving DecidableEq

/-- The filesystem tree under `base_path`: one entry per existing
`user/mailbox` directory. -/
abbrev Store := List ((String × String) × MailboxData)

def findMailbox : Store → String → String → Option MailboxData
  | [], _, _ => none
  | (k, d) :: rest, u, m => if k = (u, m) then some d else findMailbox rest u m

def setMailbox : Store → String → String → MailboxData → Store
  | [], u, m, d => [((u, m), d)]
  | (k, d0) :: rest, u, m, d =>
    if k = (u, m) then (k, d) :: rest else (k, d0) :: setMailbox rest u m d

/-- Recursive directory removal (`delete_mailbox`'s os.walk + rmdir). -/
def removeMailbox (s : Store) (u m : String) : Store :=
  s.filter (fun kv => kv.1 ≠ (u, m))

/-- Writing `{uid}.eml` with mode 'wb': creates the file or overwrites an
existing one with the same uid. -/
def msgInsert : List (Nat × Bytes) → Nat → Bytes → List (Nat × Bytes)
  | [], uid, c => [(uid, c)]
  | (k, c0) :: rest, uid, c =>
    if k = uid then (k, c) :: rest else (k, c0) :: msgInsert rest uid c

def msgLookup : List (Nat × Bytes) → Nat → Option Bytes
  | [], _ => none
  | (k, c) :: rest, uid => if k = uid then some c else msgLookup rest uid

/-- `FilesystemMailboxStore.create_mailbox`: makedirs with exist_ok, then
write `{"uidnext": 1, "uidvalidity": 1}` only if the metadata file is absent. -/
def create_mailbox (s : Store) (u m : String) : Store × Bool :=
  match findMailbox s u m with
  | some _ => (s, true)
  | none => (setMailbox s u m ⟨1, 1, []⟩, true)

/-- `FilesystemMailboxStore.delete_mailbox`: removes the directory tree when
present, returns false when absent. -/
def delete_mailbox (s : Store) (u m : String) : Store × Bool :=
  match findMailbox s u m with
  | some _ => (removeMailbox s u m, true)
  | none => (s, false)

/-- `pattern.replace('%', '').replace('*', '')`. -/
def stripWildcards (pattern : String) : String :=
  String.mk (pattern.data.filter (fun c => c ≠ '%' ∧ c ≠ '*'))

/-- `FilesystemMailboxStore.list_mailboxes`: directory entries of the user
path, skipping hidden names, filtered by the wildcard-stripped prefix. -/
def list_mailboxes (s : Store) (u : String) (pattern : String) : List String :=
  ((s.filter (fun kv => kv.1.1 = u)).map (fun kv => kv.1.2)).filter
    (fun name =>
      name.data.head? ≠ some '.' ∧
        (pattern = "" ∨ (stripWildcards pattern).data.isPrefixOf name.data))

structure MessageRec where
  uid : Nat
  content : Bytes
  flags : List String
  deriving DecidableEq

/-- `FilesystemMailboxStore.get_message`: read `{uid}.eml` if it exists;
the empty dict result is modelled as `none`. -/
def get_message (s : Store) (u m : String) (uid : Nat) : Option MessageRec :=
  match findMailbox s u m with
  | none => none
  | some md =>
    match msgLookup md.messages uid with
    | some c => some ⟨uid, c, []⟩
    | none => none

/-- `FilesystemMailboxStore._read_metadata`: defaults to
`{"uidnext": 1, "uidvalidity": 1}` when the metadata file is absent. -/
def readMetadata (s : Store) (u m : String) : MailboxData :=
  (findMailbox s u m).getD ⟨1, 1, []⟩

/-- `FilesystemMailboxStore.append_message`: ensure the mailbox directory
exists, read the metadata, take `uidnext` as the uid, write the metadata back
with `uidnext + 1`, then write `{uid}.eml`. -/
def append_message (s : Store) (u m : String) (content : Bytes) : Store × Nat :=
  let s1 := match findMailbox s u m with
    | some _ => s
    | none => (create_mailbox s u m).1
  let md := readMetadata s1 u m
  let uid := md.uidnext
  let s2 := setMailbox s1 u m { md with uidnext := uid + 1 }
  let md2 := readMetadata s2 u m
  let s3 := setMailbox s2 u m { md2 with messages := msgInsert md2.messages uid content }
  (s3, uid)

/-- Search criteria as built by `handle_search` (`{"ALL": True}` or
`{"UNSEEN": True}`). -/
inductive SearchCriteria where
  | all
  | unseen
  deriving DecidableEq

def insertionSortNat : List Nat → List Nat
  | [] => []
  | x :: xs => insertSorted x (insertionSortNat xs)
where
  insertSorted (x : Nat) : List Nat → List Nat
    | [] => [x]
    | y :: ys => if x ≤ y then x :: y :: ys else y :: insertSorted x ys

/-- `FilesystemMailboxStore.search_messages`: lists every `{uid}.eml` in the
mailbox directory, sorted ascending; the criteria argument is ignored. -/
def search_messages (s : Store) (u m : String) (_criteria : SearchCriteria) : List Nat :=
  match findMailbox s u m with
  | none => []
  | some md => insertionSortNat (md.messages.map (fun kv => kv.1))

/-- `FilesystemMailboxStore.update_flags`: placeholder, always succeeds. -/
def update_flags (_s : Store) (_u _m : String) (_uids : List Nat)
    (_flags : List String) (_mode : String) : Bool :=
  true

structure MailboxStatus where
  messages : Nat
  uidnext : Nat
  uidvalidity : Nat
  unseen : Nat
  recent : Nat
  deriving DecidableEq

/-- `FilesystemMailboxStore.get_mailbox_status`: `{}` (modelled `none`) when
the mailbox directory is absent, else counts plus the metadata values with
`unseen` and `recent` hard-coded to 0. -/
def get_mailbox_status (s : Store) (u m : String) : Option MailboxStatus :=
  match findMailbox s u m with
  | none => none
  | some md => some ⟨md.messages.length, md.uidnext, md.uidvalidity, 0, 0⟩

/-! ### Credential verifier (mirrors `auth/manager.py` and `auth/backends.py`) -/

abbrev AuthBackendFn := String → String → Bool

/-- `PlainAuthBackend.authenticate`. -/
def plainAuthenticate (username password : String) : Bool :=
  username = "test" && password = "test"

structure AuthManager where
  backends : List (String × AuthBackendFn)

def strUpper (s : String) : String := String.mk (s.data.map Char.toUpper)

def strLower (s : String) : String := String.mk (s.data.map Char.toLower)

/-- Python dict assignment `self._backends[name.upper()] = backend`. -/
def dictInsert : List (String × AuthBackendFn) → String → AuthBackendFn →
    List (String × AuthBackendFn)
  | [], k, v => [(k, v)]
  | (k0, v0) :: rest, k, v =>
    if k0 = k then (k0, v) :: rest else (k0, v0) :: dictInsert rest k v

/-- `AuthManager.register_backend`. -/
def register_backend (mgr : AuthManager) (name : String) (backend : AuthBackendFn) :
    AuthManager :=
  ⟨dictInsert mgr.backends (strUpper name) backend⟩

/-- `self._backends.get(mechanism.upper())`. -/
def lookupBackend (mgr : AuthManager) (mechanism : String) : Option AuthBackendFn :=
  mgr.backends.lookup (strUpper mechanism)

/-- `AuthManager.authenticate`. -/
def authenticate (mgr : AuthManager) (mechanism username password : String) : Bool :=
  match lookupBackend mgr mechanism with
  | none => false
  | some backend => backend username password

/-- The `AuthManager()` constructor registers the PLAIN backend. -/
def defaultAuthManager : AuthManager := register_backend ⟨[]⟩ "PLAIN" plainAuthenticate

/-! ### Message pipeline (mirrors `mcp_pipeline/pipeline.py`) -/

/-- The dict `{"content": ..., "mailbox": ..., "user": ...}` passed through
the pipeline. -/
structure Ctx where
  content : Bytes
  mailbox : String
  user : String
  deriving DecidableEq

/-- A processor's `process` coroutine: either a new context or a raised
exception (carried as a message). -/
abbrev Processor := Ctx → Except String Ctx

/-- `MCPPipeline.process_message`: each processor call sits inside
try/except; on an exception `processed_data` keeps the value it had before
that processor and the chain continues. -/
def process_message : List Processor → Ctx → Ctx
  | [], ctx => ctx
  | p :: ps, ctx =>
    match p ctx with
    | .ok ctx2 => process_message ps ctx2
    | .error _ => process_message ps ctx

/-- A processor that raises on every call. -/
def alwaysFail : Processor := fun _ => .error "processor failure"

/-! ### Response serializer (mirrors `imap_protocol/serializer.py`) -/

/-- One write on the connection: a serialized response line, or raw literal
bytes streamed by FETCH. -/
inductive Resp where
  | line (s : String)
  | raw (b : Bytes)
  deriving DecidableEq

namespace IMAPResponseSerializer

def ok (tag : String) (message : String) : Resp :=
  .line (tag ++ " " ++ message ++ "\r\n")

def bad (tag : String) (message : String) : Resp :=
  .line (tag ++ " " ++ message ++ "\r\n")

def untagged_ok (message : String) : Resp :=
  .line ("* " ++ message ++ "\r\n")

def capability (capabilities : List String) : Resp :=
  .line ("* CAPABILITY " ++ String.intercalate " " capabilities ++ "\r\n")

/-- `bye()` is always called with its default message. -/
def bye : Resp :=
  .line "* BYE IMAP4rev1 Server shutting down\r\n"

end IMAPResponseSerializer

/-! ### Command parser (mirrors `imap_protocol/parser.py`) -/

/-- The characters `str.strip()` removes. -/
def pyIsSpace (c : Char) : Bool :=
  c = ' ' ∨ c = '\t' ∨ c = '\n' ∨ c = '\r' ∨ c.toNat = 11 ∨ c.toNat = 12

/-- `str.strip()`. -/
def pyStrip (cs : List Char) : List Char :=
  ((cs.dropWhile pyIsSpace).reverse.dropWhile pyIsSpace).reverse

/-- Split at the first space character (the pieces of `split(' ', 2)`). -/
def breakSpace : List Char → List Char × List Char
  | [] => ([], [])
  | c :: cs =>
    if c = ' ' then ([], c :: cs)
    else
      let r := breakSpace cs
      (c :: r.1, r.2)

def notWS (c : Char) : Bool := ¬ pyIsSpace c

/-- One pass of `re.findall(r'"([^"]*)"|(\S+)', s)`: at a `"` that has a
matching closing quote the quoted body (quotes stripped) is one token,
otherwise a maximal run of non-whitespace is one token; whitespace between
matches is skipped.  Fuel is the input length, enough for every step since
each step consumes at least one character. -/
def tokenizeFuel : Nat → List Char → List String
  | 0, _ => []
  | _ + 1, [] => []
  | fuel + 1, c :: rest =>
    if pyIsSpace c then tokenizeFuel fuel rest
    else if c = '"' then
      let q := rest.span (fun d => d ≠ '"')
      match q.2 with
      | _ :: after => String.mk q.1 :: tokenizeFuel fuel after
      | [] =>
        String.mk (c :: rest.takeWhile notWS) :: tokenizeFuel fuel (rest.dropWhile notWS)
    else
      String.mk (c :: rest.takeWhile notWS) :: tokenizeFuel fuel (rest.dropWhile notWS)

def tokenize (cs : List Char) : List String := tokenizeFuel cs.length cs

/-- `IMAPCommandParser.parse`: strip, `split(' ', 2)`; fewer than two fields
is a ValueError (`none`); the command field is upper-cased and the remainder
tokenized. -/
def parse (data : String) : Option (String × String × List String) :=
  match breakSpace (pyStrip data.data) with
  | (_, []) => none
  | (p0, _ :: r0) =>
    match breakSpace r0 with
    | (p1, []) => some (String.mk p0, strUpper (String.mk p1), [])
    | (p1, _ :: rest) => some (String.mk p0, strUpper (String.mk p1), tokenize rest)

/-! ### Session (mirrors `imap_protocol/session.py`) -/

structure SessionState where
  authenticated : Bool
  current_user : Option String
  selected_mailbox : Option String
  read_only : Bool
  deriving DecidableEq

def initialSession : SessionState := ⟨false, none, none, false⟩

/-- Exceptions a handler can raise into the run loop. -/
inductive Exn where
  | incompleteReadError
  | typeError
  deriving DecidableEq

/-- How a handler coroutine finishes: a normal return, or a raised exception
that propagates to the run loop's except clauses. -/
inductive Outcome where
  | returned
  | raised (e : Exn)
  deriving DecidableEq

/-- Effect of one handler: responses written, updated session attributes,
updated store, remaining raw byte stream, and how control returned. -/
structure HandlerResult where
  sent : List Resp
  sess : SessionState
  store : Store
  stream : Bytes
  outcome : Outcome
  deriving DecidableEq

/-- Collaborators a session holds: the auth manager and the pipeline's
processor list. -/
structure Deps where
  auth_manager : AuthManager
  pipeline : List Processor

def userOf (sess : SessionState) : String := sess.current_user.getD ""

def digitsToNat (ds : List Char) : Nat :=
  ds.foldl (fun acc c => acc * 10 + (c.toNat - 48)) 0

/-- `re.match(r'\x7b(\d+)\x7d', s)`: anchored at the start, one or more
digits between braces, trailing garbage permitted. -/
def parseLiteral (s : String) : Option Nat :=
  match s.data with
  | '\x7b' :: rest =>
    let digits := rest.takeWhile Char.isDigit
    match digits, rest.dropWhile Char.isDigit with
    | [], _ => none
    | _, '\x7d' :: _ => some (digitsToNat digits)
    | _, _ => none
  | _ => none

/-- UTF-8 encoding of one code point (`str.encode('utf-8')`). -/
def utf8Bytes (c : Nat) : List Nat :=
  if c < 0x80 then [c]
  else if c < 0x800 then [0xC0 + c / 0x40, 0x80 + c % 0x40]
  else if c < 0x10000 then
    [0xE0 + c / 0x1000, 0x80 + (c / 0x40) % 0x40, 0x80 + c % 0x40]
  else
    [0xF0 + c / 0x40000, 0x80 + (c / 0x1000) % 0x40, 0x80 + (c / 0x40) % 0x40,
      0x80 + c % 0x40]

def strToBytes (s : String) : Bytes :=
  s.data.foldr (fun c acc => utf8Bytes c.toNat ++ acc) []

def handle_capability (_d : Deps) (sess : SessionState) (store : Store)
    (stream : Bytes) (tag : String) (_args : List String) : HandlerResult :=
  ⟨[IMAPResponseSerializer.capability
      ["IMAP4rev1", "AUTH=PLAIN", "IDLE", "LITERAL+", "UIDPLUS"],
    IMAPResponseSerializer.ok tag "CAPABILITY completed"],
   sess, store, stream, .returned⟩

def handle_login (d : Deps) (sess : SessionState) (store : Store)
    (stream : Bytes) (tag : String) (args : List String) : HandlerResult :=
  if args.length ≠ 2 then
    ⟨[IMAPResponseSerializer.bad tag "LOGIN requires username and password"],
     sess, store, stream, .returned⟩
  else
    let username := args.headD ""
    let password := args.getD 1 ""
    if authenticate d.auth_manager "PLAIN" username password then
      ⟨[IMAPResponseSerializer.ok tag "LOGIN completed"],
       { sess with authenticated := true, current_user := some username },
       store, stream, .returned⟩
    else
      ⟨[IMAPResponseSerializer.bad tag "LOGIN failed: Invalid credentials"],
       sess, store, stream, .returned⟩

/-- `handle_logout` sends BYE then the tagged OK, then raises
`asyncio.IncompleteReadError` to make the run loop close the connection. -/
def handle_logout (_d : Deps) (sess : SessionState) (store : Store)
    (stream : Bytes) (tag : String) (_args : List String) : HandlerResult :=
  ⟨[IMAPResponseSerializer.bye, IMAPResponseSerializer.ok tag "LOGOUT completed"],
   sess, store, stream, .raised .incompleteReadError⟩

def selectResponses (mode : String) (m : String) (st : MailboxStatus)
    (tag : String) (completed : String) : List Resp :=
  [IMAPResponseSerializer.untagged_ok ("[" ++ mode ++ "] " ++ m ++ " selected"),
   IMAPResponseSerializer.untagged_ok (toString st.messages ++ " EXISTS"),
   IMAPResponseSerializer.untagged_ok (toString st.recent ++ " RECENT"),
   IMAPResponseSerializer.untagged_ok
     ("OK [UIDVALIDITY " ++ toString st.uidvalidity ++ "] UIDVALIDITY"),
   IMAPResponseSerializer.untagged_ok
     ("OK [UIDNEXT " ++ toString st.uidnext ++ "] UIDNEXT"),
   IMAPResponseSerializer.ok tag completed]

def handle_select (_d : Deps) (sess : SessionState) (store : Store)
    (stream : Bytes) (tag : String) (args : List String) : HandlerResult :=
  if sess.authenticated = false then
    ⟨[IMAPResponseSerializer.bad tag "SELECT failed: Not authenticated"],
     sess, store, stream, .returned⟩
  else if args.length ≠ 1 then
    ⟨[IMAPResponseSerializer.bad tag "SELECT requires a mailbox name"],
     sess, store, stream, .returned⟩
  else
    let m := args.headD ""
    match get_mailbox_status store (userOf sess) m with
    | some st =>
      ⟨selectResponses "READ-WRITE" m st tag "SELECT completed",
       { sess with selected_mailbox := some m, read_only := false },
       store, stream, .returned⟩
    | none =>
      ⟨[IMAPResponseSerializer.bad tag ("SELECT failed: Mailbox " ++ m ++ " not found")],
       sess, store, stream, .returned⟩

def handle_examine (_d : Deps) (sess : SessionState) (store : Store)
    (stream : Bytes) (tag : String) (args : List String) : HandlerResult :=
  if sess.authenticated = false then
    ⟨[IMAPResponseSerializer.bad tag "EXAMINE failed: Not authenticated"],
     sess, store, stream, .returned⟩
  else if args.length ≠ 1 then
    ⟨[IMAPResponseSerializer.bad tag "EXAMINE requires a mailbox name"],
     sess, store, stream, .returned⟩
  else
    let m := args.headD ""
    match get_mailbox_status store (userOf sess) m with
    | some st =>
      ⟨selectResponses "READ-ONLY" m st tag "EXAMINE completed",
       { sess with selected_mailbox := some m, read_only := true },
       store, stream, .returned⟩
    | none =>
      ⟨[IMAPResponseSerializer.bad tag ("EXAMINE failed: Mailbox " ++ m ++ " not found")],
       sess, store, stream, .returned⟩

def handle_create (_d : Deps) (sess : SessionState) (store : Store)
    (stream : Bytes) (tag : String) (args : List String) : HandlerResult :=
  if sess.authenticated = false then
    ⟨[IMAPResponseSerializer.bad tag "CREATE failed: Not authenticated"],
     sess, store, stream, .returned⟩
  else if args.length ≠ 1 then
    ⟨[IMAPResponseSerializer.bad tag "CREATE requires a mailbox name"],
     sess, store, stream, .returned⟩
  else
    let m := args.headD ""
    let r := create_mailbox store (userOf sess) m
    if r.2 then
      ⟨[IMAPResponseSerializer.ok tag "CREATE completed"],
       sess, r.1, stream, .returned⟩
    else
      ⟨[IMAPResponseSerializer.bad tag
          ("CREATE failed: Could not create mailbox " ++ m)],
       sess, r.1, stream, .returned⟩

/-- `handle_delete` calls `delete_mailbox` and reports the outcome; it does
not touch `selected_mailbox` or any other session attribute. -/
def handle_delete (_d : Deps) (sess : SessionState) (store : Store)
    (stream : Bytes) (tag : String) (args : List String) : HandlerResult :=
  if sess.authenticated = false then
    ⟨[IMAPResponseSerializer.bad tag "DELETE failed: Not authenticated"],
     sess, store, stream, .returned⟩
  else if args.length ≠ 1 then
    ⟨[IMAPResponseSerializer.bad tag "DELETE requires a mailbox name"],
     sess, store, stream, .returned⟩
  else
    let m := args.headD ""
    let r := delete_mailbox store (userOf sess) m
    if r.2 then
      ⟨[IMAPResponseSerializer.ok tag "DELETE completed"],
       sess, r.1, stream, .returned⟩
    else
      ⟨[IMAPResponseSerializer.bad tag
          ("DELETE failed: Could not delete mailbox " ++ m)],
       sess, r.1, stream, .returned⟩

def handle_list (_d : Deps) (sess : SessionState) (store : Store)
    (stream : Bytes) (tag : String) (args : List String) : HandlerResult :=
  if sess.authenticated = false then
    ⟨[IMAPResponseSerializer.bad tag "LIST failed: Not authenticated"],
     sess, store, stream, .returned⟩
  else if args.length ≠ 2 then
    ⟨[IMAPResponseSerializer.bad tag "LIST requires a reference and a mailbox pattern"],
     sess, store, stream, .returned⟩
  else
    let pattern := args.getD 1 ""
    let boxes := list_mailboxes store (userOf sess) pattern
    ⟨boxes.map (fun b =>
        IMAPResponseSerializer.untagged_ok
          ("LIST (\\Noinferiors) \"/\" \"" ++ b ++ "\""))
      ++ [IMAPResponseSerializer.ok tag "LIST completed"],
     sess, store, stream, .returned⟩

/-- `handle_lsub` re-uses the LIST logic verbatim. -/
def handle_lsub (d : Deps) (sess : SessionState) (store : Store)
    (stream : Bytes) (tag : String) (args : List String) : HandlerResult :=
  handle_list d sess store stream tag args

/-- `str.strip('()')`. -/
def stripParens (cs : List Char) : List Char :=
  ((cs.dropWhile (fun c => c = '(' ∨ c = ')')).reverse.dropWhile
    (fun c => c = '(' ∨ c = ')')).reverse

/-- `split(' ')` keeping empty pieces between consecutive separators. -/
def splitOnSpace : List Char → List (List Char)
  | [] => [[]]
  | c :: rest =>
    if c = ' ' then [] :: splitOnSpace rest
    else
      match splitOnSpace rest with
      | [] => [[c]]
      | t :: ts => (c :: t) :: ts

def statusItemPart (st : MailboxStatus) (item : String) : List String :=
  if item = "MESSAGES" then ["MESSAGES " ++ toString st.messages]
  else if item = "RECENT" then ["RECENT " ++ toString st.recent]
  else if item = "UIDNEXT" then ["UIDNEXT " ++ toString st.uidnext]
  else if item = "UIDVALIDITY" then ["UIDVALIDITY " ++ toString st.uidvalidity]
  else if item = "UNSEEN" then ["UNSEEN " ++ toString st.unseen]
  else []

def handle_status (_d : Deps) (sess : SessionState) (store : Store)
    (stream : Bytes) (tag : String) (args : List String) : HandlerResult :=
  if sess.authenticated = false then
    ⟨[IMAPResponseSerializer.bad tag "STATUS failed: Not authenticated"],
     sess, store, stream, .returned⟩
  else if args.length ≠ 2 then
    ⟨[IMAPResponseSerializer.bad tag "STATUS requires a mailbox name and a list of items"],
     sess, store, stream, .returned⟩
  else
    let m := args.headD ""
    let requested :=
      ((splitOnSpace (stripParens (args.getD 1 "").data)).filter (fun t => t ≠ []))
        |>.map (fun t => strUpper (String.mk t))
    match get_mailbox_status store (userOf sess) m with
    | some st =>
      let parts := requested.foldr (fun item acc => statusItemPart st item ++ acc) []
      ⟨[IMAPResponseSerializer.untagged_ok
          ("* STATUS " ++ m ++ " (" ++ String.intercalate " " parts ++ ")"),
        IMAPResponseSerializer.ok tag "STATUS completed"],
       sess, store, stream, .returned⟩
    | none =>
      ⟨[IMAPResponseSerializer.bad tag ("STATUS failed: Mailbox " ++ m ++ " not found")],
       sess, store, stream, .returned⟩

/-- Shared tail of `handle_append` after the message content has been
determined: pipeline, store append, tagged reply (`if uid:` is the Python
truthiness test, i.e. `uid ≠ 0`). -/
def finishAppend (d : Deps) (sess : SessionState) (store : Store)
    (stream : Bytes) (tag : String) (mailbox : String) (content : Bytes)
    (pre : List Resp) : HandlerResult :=
  let processed := process_message d.pipeline ⟨content, mailbox, userOf sess⟩
  let r := append_message store (userOf sess) mailbox processed.content
  if r.2 ≠ 0 then
    ⟨pre ++ [IMAPResponseSerializer.ok tag
        ("APPEND completed [UID " ++ toString r.2 ++ "]")],
     sess, r.1, stream, .returned⟩
  else
    ⟨pre ++ [IMAPResponseSerializer.bad tag "APPEND failed"],
     sess, r.1, stream, .returned⟩

/-- `handle_append`: on a `\x7bN\x7d` final argument, send the continuation
prompt and read exactly N+2 bytes from the raw stream (raising
`IncompleteReadError` if the stream is shorter), dropping the trailing CRLF;
otherwise the final argument itself, UTF-8 encoded, is the content. -/
def handle_append (d : Deps) (sess : SessionState) (store : Store)
    (stream : Bytes) (tag : String) (args : List String) : HandlerResult :=
  if sess.authenticated = false then
    ⟨[IMAPResponseSerializer.bad tag "APPEND failed: Not authenticated"],
     sess, store, stream, .returned⟩
  else if args.length < 2 then
    ⟨[IMAPResponseSerializer.bad tag "APPEND requires mailbox and literal"],
     sess, store, stream, .returned⟩
  else
    let mailbox := args.headD ""
    let lastArg := args.getLastD ""
    match parseLiteral lastArg with
    | some size =>
      if stream.length < size + 2 then
        ⟨[.line "+\r\n"], sess, store, [], .raised .incompleteReadError⟩
      else
        let chunk := stream.take (size + 2)
        let content := chunk.take (chunk.length - 2)
        finishAppend d sess store (stream.drop (size + 2)) tag mailbox content
          [.line "+\r\n"]
    | none => finishAppend d sess store stream tag mailbox (strToBytes lastArg) []

/-- `int()` on a string: optional surrounding whitespace, optional sign,
decimal digits. -/
def pyInt (s : String) : Option Int :=
  match pyStrip s.data with
  | '-' :: ds =>
    if ds ≠ [] ∧ ds.all Char.isDigit then some (-(digitsToNat ds : Int)) else none
  | '+' :: ds =>
    if ds ≠ [] ∧ ds.all Char.isDigit then some (digitsToNat ds) else none
  | ds =>
    if ds ≠ [] ∧ ds.all Char.isDigit then some (digitsToNat ds) else none

def handle_fetch (_d : Deps) (sess : SessionState) (store : Store)
    (stream : Bytes) (tag : String) (args : List String) : HandlerResult :=
  if sess.authenticated = false ∨ sess.selected_mailbox = none then
    ⟨[IMAPResponseSerializer.bad tag
        "FETCH failed: Not authenticated or no mailbox selected"],
     sess, store, stream, .returned⟩
  else if args.length < 2 then
    ⟨[IMAPResponseSerializer.bad tag
        "FETCH requires message sequence/UID set and data items"],
     sess, store, stream, .returned⟩
  else
    let fetchItem := strUpper (args.getD 1 "")
    match pyInt (args.headD "") with
    | none =>
      ⟨[IMAPResponseSerializer.bad tag "FETCH failed: Invalid message sequence/UID"],
       sess, store, stream, .returned⟩
    | some uid =>
      let msg := if uid < 0 then none
        else get_message store (userOf sess) (sess.selected_mailbox.getD "") uid.toNat
      match msg with
      | some rec =>
        if fetchItem = "BODY[]" then
          ⟨[IMAPResponseSerializer.untagged_ok
              ("FETCH " ++ toString uid ++ " (BODY[] \x7b" ++
                toString rec.content.length ++ "\x7d)"),
            .raw (rec.content ++ [13, 10]),
            IMAPResponseSerializer.ok tag "FETCH completed"],
           sess, store, stream, .returned⟩
        else if fetchItem = "UID" then
          ⟨[IMAPResponseSerializer.untagged_ok
              ("FETCH " ++ toString uid ++ " (UID " ++ toString uid ++ ")"),
            IMAPResponseSerializer.ok tag "FETCH completed"],
           sess, store, stream, .returned⟩
        else
          ⟨[IMAPResponseSerializer.bad tag
              ("FETCH failed: Unsupported fetch item " ++ fetchItem)],
           sess, store, stream, .returned⟩
      | none =>
        ⟨[IMAPResponseSerializer.bad tag
            ("FETCH failed: Message " ++ toString uid ++ " not found")],
         sess, store, stream, .returned⟩

def handle_search (_d : Deps) (sess : SessionState) (store : Store)
    (stream : Bytes) (tag : String) (args : List String) : HandlerResult :=
  if sess.authenticated = false ∨ sess.selected_mailbox = none then
    ⟨[IMAPResponseSerializer.bad tag
        "SEARCH failed: Not authenticated or no mailbox selected"],
     sess, store, stream, .returned⟩
  else
    let criteria : SearchCriteria :=
      if args ≠ [] ∧ strUpper (args.headD "") = "UNSEEN" then .unseen else .all
    let uids :=
      search_messages store (userOf sess) (sess.selected_mailbox.getD "") criteria
    ⟨[IMAPResponseSerializer.untagged_ok
        ("SEARCH " ++ String.intercalate " " (uids.map toString)),
      IMAPResponseSerializer.ok tag "SEARCH completed"],
     sess, store, stream, .returned⟩

def handle_unknown_command (_d : Deps) (sess : SessionState) (store : Store)
    (stream : Bytes) (tag : String) (_args : List String) : HandlerResult :=
  ⟨[IMAPResponseSerializer.bad tag "Command not recognized or supported"],
   sess, store, stream, .returned⟩

/-- `handle_command`'s `getattr(self, f"handle_\x7bcommand.lower()\x7d",
self.handle_unknown_command)` dispatch.  A client command named `COMMAND`
makes the lookup resolve to `handle_command` itself; awaiting it with only
`(tag, args)` raises `TypeError` (wrong arity), which escapes to the run
loop's generic except clause. -/
def dispatch (d : Deps) (sess : SessionState) (store : Store) (stream : Bytes)
    (tag command : String) (args : List String) : HandlerResult :=
  if strLower command = "capability" then handle_capability d sess store stream tag args
  else if strLower command = "login" then handle_login d sess store stream tag args
  else if strLower command = "logout" then handle_logout d sess store stream tag args
  else if strLower command = "select" then handle_select d sess store stream tag args
  else if strLower command = "examine" then handle_examine d sess store stream tag args
  else if strLower command = "create" then handle_create d sess store stream tag args
  else if strLower command = "delete" then handle_delete d sess store stream tag args
  else if strLower command = "list" then handle_list d sess store stream tag args
  else if strLower command = "lsub" then handle_lsub d sess store stream tag args
  else if strLower command = "status" then handle_status d sess store stream tag args
  else if strLower command = "append" then handle_append d sess store stream tag args
  else if strLower command = "fetch" then handle_fetch d sess store stream tag args
  else if strLower command = "search" then handle_search d sess store stream tag args
  else if strLower command = "command" then ⟨[], sess, store, stream, .raised .typeError⟩
  else handle_unknown_command d sess store stream tag args

/-- The handler names the dispatcher can resolve to ordinary command
handlers (everything except the `handle_command` /
`handle_unknown_command` special cases). -/
def handlerNames : List String :=
  ["capability", "login", "logout", "select", "examine", "create", "delete",
   "list", "lsub", "status", "append", "fetch", "search"]

inductive LoopAction where
  | continue_
  | close
  deriving DecidableEq

structure StepResult where
  sent : List Resp
  sess : SessionState
  store : Store
  stream : Bytes
  action : LoopAction
  deriving DecidableEq

/-- How the run loop reacts to a handler's completion: a raised exception
(IncompleteReadError or any other) hits an except clause and breaks out of
the loop; a normal return continues it. -/
def stepOfResult (r : HandlerResult) : StepResult :=
  match r.outcome with
  | .returned => ⟨r.sent, r.sess, r.store, r.stream, .continue_⟩
  | .raised _ => ⟨r.sent, r.sess, r.store, r.stream, .close⟩

/-- One iteration of `IMAPSession.run` on a received line: strip it, parse
it, dispatch; on a ParseError, answer on the first field if the line has a
space, otherwise break out of the loop (closing the connection) without any
response. -/
def runStep (d : Deps) (sess : SessionState) (store : Store) (stream : Bytes)
    (line : String) : StepResult :=
  match parse (String.mk (pyStrip line.data)) with
  | some (tag, command, args) => stepOfResult (dispatch d sess store stream tag command args)
  | none =>
    if pyStrip line.data ≠ [] ∧ ' ' ∈ pyStrip line.data then
      ⟨[IMAPResponseSerializer.bad (String.mk (breakSpace (pyStrip line.data)).1)
          "Invalid IMAP command format"],
       sess, store, stream, .continue_⟩
    else
      ⟨[], sess, store, stream, .close⟩

/-! ### Interleaving model of concurrent `append_message` calls

`append_message` suspends at each aiofiles operation, so two coroutines
appending to the same mailbox interleave at those await points.  Each task
below performs the three awaited steps of `append_message` on an
already-existing mailbox (for which the initial existence check is a
read-only no-op, folded into the metadata read): read the metadata, write it
back with the incremented local copy, then write the `{uid}.eml` file. -/

inductive AppendPhase where
  | start
  | metaRead (localUid : Nat)
  | metaWritten (localUid : Nat)
  | done (uid : Nat)
  deriving DecidableEq

structure ConcState where
  mbox : MailboxData
  tasks : List (AppendPhase × Bytes)
  deriving DecidableEq

/-- One awaited step of one in-flight `append_message` coroutine. -/
def stepTask (m : MailboxData) (ph : AppendPhase) (content : Bytes) :
    MailboxData × AppendPhase :=
  match ph with
  | .start => (m, .metaRead m.uidnext)
  | .metaRead u => ({ m with uidnext := u + 1 }, .metaWritten u)
  | .metaWritten u => ({ m with messages := msgInsert m.messages u content }, .done u)
  | .done u => (m, .done u)

/-- Run the interleaving given by a schedule of task indices. -/
def runSchedule (c : ConcState) : List Nat → ConcState
  | [] => c
  | i :: rest =>
    match c.tasks[i]? with
    | none => runSchedule c rest
    | some (ph, content) =>
      let s := stepTask c.mbox ph content
      runSchedule ⟨s.1, c.tasks.set i (s.2, content)⟩ rest

/-- The uid each task's `append_message` call returned (`none` while still
in flight). -/
def taskResultUids (c : ConcState) : List (Option Nat) :=
  c.tasks.map (fun t =>
    match t.1 with
    | .done u => some u
    | _ => none)

/-! ### Helper lemmas -/

theorem findMailbox_setMailbox (s : Store) (u m : String) (d : MailboxData) :
    findMailbox (setMailbox s u m d) u m = some d := by
  induction s with
  | nil => simp [setMailbox, findMailbox]
  | cons kv rest ih =>
    obtain ⟨k, d0⟩ := kv
    by_cases h : k = (u, m) <;> simp [setMailbox, findMailbox, h, ih]

theorem msgLookup_msgInsert (l : List (Nat × Bytes)) (uid : Nat) (c : Bytes) :
    msgLookup (msgInsert l uid c) uid = some c := by
  induction l with
  | nil => simp [msgInsert, msgLookup]
  | cons kv rest ih =>
    obtain ⟨k, c0⟩ := kv
    by_cases h : k = uid <;> simp [msgInsert, msgLookup, h, ih]

theorem findMailbox_removeMailbox (s : Store) (u m : String) :
    findMailbox (removeMailbox s u m) u m = none := by
  induction s with
  | nil => simp [removeMailbox, findMailbox]
  | cons kv rest ih =>
    obtain ⟨k, d0⟩ := kv
    by_cases h : k = (u, m)
    · simpa [removeMailbox, List.filter_cons, h] using ih
    · simpa [removeMailbox, List.filter_cons, h, findMailbox] using ih

theorem mem_of_mem_dropWhile (p : Char → Bool) (l : List Char) (c : Char)
    (h : c ∈ l.dropWhile p) : c ∈ l := by
  induction l with
  | nil => simp at h
  | cons x xs ih =>
    rw [List.dropWhile_cons] at h
    by_cases hp : p x
    · simp only [hp, if_true] at h
      exact List.mem_cons_of_mem _ (ih h)
    · simp only [hp, if_false] at h
      exact h

theorem mem_of_mem_pyStrip (cs : List Char) (c : Char) (h : c ∈ pyStrip cs) :
    c ∈ cs := by
  unfold pyStrip at h
  rw [List.mem_reverse] at h
  have h2 := mem_of_mem_dropWhile _ _ _ h
  rw [List.mem_reverse] at h2
  exact mem_of_mem_dropWhile _ _ _ h2

theorem breakSpace_of_noSpace (cs : List Char) (h : ' ' ∉ cs) :
    breakSpace cs = (cs, []) := by
  induction cs with
  | nil => rfl
  | cons c rest ih =>
    have hc : ¬ c = ' ' := by
      rintro rfl
      exact h (List.mem_cons_self _ _)
    have hr : ' ' ∉ rest := fun hm => h (List.mem_cons_of_mem _ hm)
    simp [breakSpace, hc, ih hr]

theorem parse_eq_none_of_noSpace (m : List Char) (h : ' ' ∉ m) :
    parse (String.mk m) = none := by
  have h2 : ' ' ∉ pyStrip m := fun hm => h (mem_of_mem_pyStrip m ' ' hm)
  unfold parse
  simp [breakSpace_of_noSpace _ h2]

theorem getLastD_pair (a b d : String) : List.getLastD [a, b] d = b := rfl

/-! ### Claims -/

/-- Claim C1: the spec requires that N concurrent `append_message` calls on
one mailbox return pairwise-distinct consecutive uids with `uidnext` ending
at `max(uid)+1`.  The code's unsynchronized read-then-write of the metadata
violates this: interleaving two appends as read, read, metadata-write,
metadata-write, file-write, file-write (schedule `[0,1,0,1,0,1]`) starting
from a fresh mailbox gives BOTH appends uid 1, and the second message file
overwrites the first, while the stored uidnext ends at 2. -/
theorem C1_concurrent_appends_duplicate_uid :
    taskResultUids (runSchedule ⟨⟨1, 1, []⟩, [(.start, [65]), (.start, [66])]⟩
        [0, 1, 0, 1, 0, 1]) = [some 1, some 1]
    ∧ (runSchedule ⟨⟨1, 1, []⟩, [(.start, [65]), (.start, [66])]⟩
        [0, 1, 0, 1, 0, 1]).mbox = ⟨2, 1, [(1, [66])]⟩ := by
  exact ⟨rfl, rfl⟩

/-- Claim C2: the spec requires a recreated mailbox to carry a uidvalidity
distinct from every previous incarnation.  The code hard-codes
`uidvalidity = 1` in `create_mailbox`, so the incarnation before deletion
and the incarnation after recreation both report uidvalidity 1. -/
theorem C2_uidvalidity_reused_across_incarnations :
    (get_mailbox_status ((create_mailbox ([] : Store) "test" "INBOX").1)
        "test" "INBOX").map MailboxStatus.uidvalidity = some 1
    ∧ (get_mailbox_status ((create_mailbox ((delete_mailbox
          ((create_mailbox ([] : Store) "test" "INBOX").1) "test" "INBOX").1)
          "test" "INBOX").1) "test" "INBOX").map MailboxStatus.uidvalidity
        = some 1 := by
  exact ⟨rfl, rfl⟩

/-- Claim C3: handling LOGOUT sends the untagged BYE, then the tagged OK —
that part holds — but the spec requires the close signal to be an explicit
session-lifecycle outcome value, not a raised fault; the code instead raises
`asyncio.IncompleteReadError`, i.e. the handler's outcome is a raised
exception caught by the run loop. -/
theorem C3_logout_signals_close_by_raising (d : Deps) (sess : SessionState)
    (store : Store) (stream : Bytes) (tag : String) (args : List String) :
    handle_logout d sess store stream tag args =
      ⟨[IMAPResponseSerializer.bye, IMAPResponseSerializer.ok tag "LOGOUT completed"],
       sess, store, stream, .raised .incompleteReadError⟩ := rfl

/-- Claim C4 (counterexample): a session with `INBOX` selected successfully
deletes `INBOX`, yet its `selected_mailbox` still reports `INBOX`
afterwards — the claim that DELETE clears the selection is false. -/
theorem C4_counterexample_delete_keeps_stale_selection :
    handle_delete ⟨defaultAuthManager, []⟩ ⟨true, some "test", some "INBOX", false⟩
        [(("test", "INBOX"), ⟨1, 1, []⟩)] [] "A1" ["INBOX"] =
      ⟨[IMAPResponseSerializer.ok "A1" "DELETE completed"],
       ⟨true, some "test", some "INBOX", false⟩, [], [], .returned⟩ := by
  rfl

/-- Claim C4 (amended): successfully handling DELETE M removes the mailbox
and reports the tagged OK, but leaves the whole session state — including
`selected_mailbox` — unchanged, so the session still records M as its
selection. -/
theorem C4_delete_succeeds_but_selection_unchanged (d : Deps) (sess : SessionState)
    (store : Store) (stream : Bytes) (tag m : String) (md : MailboxData)
    (hauth : sess.authenticated = true)
    (hfind : findMailbox store (userOf sess) m = some md) :
    handle_delete d sess store stream tag [m] =
      ⟨[IMAPResponseSerializer.ok tag "DELETE completed"], sess,
       removeMailbox store (userOf sess) m, stream, .returned⟩
    ∧ findMailbox (removeMailbox store (userOf sess) m) (userOf sess) m = none := by
  constructor
  · simp [handle_delete, hauth, delete_mailbox, hfind]
  · exact findMailbox_removeMailbox _ _ _

/-- Witness for the amended C4 theorem at a concrete session and store. -/
theorem C4_delete_witness :
    handle_delete ⟨defaultAuthManager, []⟩ ⟨true, some "test", some "Work", false⟩
        [(("test", "Work"), ⟨3, 1, [(1, [65])]⟩)] [] "A2" ["Work"] =
      ⟨[IMAPResponseSerializer.ok "A2" "DELETE completed"],
       ⟨true, some "test", some "Work", false⟩,
       removeMailbox [(("test", "Work"), ⟨3, 1, [(1, [65])]⟩)] "test" "Work",
       [], .returned⟩
    ∧ findMailbox
        (removeMailbox [(("test", "Work"), ⟨3, 1, [(1, [65])]⟩)] "test" "Work")
        "test" "Work" = none :=
  C4_delete_succeeds_but_selection_unchanged _ _ _ _ _ _ ⟨3, 1, [(1, [65])]⟩ rfl rfl

/-- Claim C5: sequentially, `append_message u m B` returning uid k implies
`get_message u m k` returns a record whose content equals B byte-for-byte. -/
theorem C5_append_then_get_round_trips (s : Store) (u m : String) (B : Bytes) :
    ∃ rec : MessageRec,
      get_message (append_message s u m B).1 u m (append_message s u m B).2 = some rec
      ∧ rec.content = B := by
  unfold append_message get_message
  cases hf : findMailbox s u m <;>
    simp [hf, findMailbox_setMailbox, msgLookup_msgInsert, readMetadata]

/-- Claim C6: `authenticate("PLAIN", "test", "test")` is true; every other
credential pair under PLAIN is false; a mechanism with no registered backend
yields false (the model is a total function, so no error is possible); and
backend lookup is case-insensitive in the mechanism name. -/
theorem C6_authenticate_contract :
    authenticate defaultAuthManager "PLAIN" "test" "test" = true
    ∧ (∀ u p : String, ¬(u = "test" ∧ p = "test") →
        authenticate defaultAuthManager "PLAIN" u p = false)
    ∧ (∀ (mgr : AuthManager) (mech u p : String), lookupBackend mgr mech = none →
        authenticate mgr mech u p = false)
    ∧ (∀ (mgr : AuthManager) (mech1 mech2 u p : String),
        strUpper mech1 = strUpper mech2 →
        authenticate mgr mech1 u p = authenticate mgr mech2 u p) := by
  refine ⟨rfl, ?_, ?_, ?_⟩
  · intro u p h
    have hb : lookupBackend defaultAuthManager "PLAIN" = some plainAuthenticate := rfl
    unfold authenticate
    rw [hb]
    unfold plainAuthenticate
    rcases not_and_or.mp h with h1 | h1 <;> simp [h1]
  · intro mgr mech u p h
    unfold authenticate
    rw [h]
  · intro mgr mech1 mech2 u p h
    unfold authenticate lookupBackend
    rw [h]

/-- Witness for C6 at concrete credentials and mechanism spellings. -/
theorem C6_authenticate_witness :
    authenticate defaultAuthManager "PLAIN" "alice" "pw" = false
    ∧ authenticate defaultAuthManager "KERBEROS" "x" "y" = false
    ∧ authenticate defaultAuthManager "plain" "test" "test" =
        authenticate defaultAuthManager "PLAIN" "test" "test" :=
  ⟨C6_authenticate_contract.2.1 "alice" "pw" (by decide),
   C6_authenticate_contract.2.2.1 defaultAuthManager "KERBEROS" "x" "y" rfl,
   C6_authenticate_contract.2.2.2 defaultAuthManager "plain" "PLAIN" "test" "test" rfl⟩

/-- Claim C7: a processor that raises is skipped and the chain continues
with the context as it stood before it; the pipeline is total (a chain of
always-raising processors acts as the identity); and an APPEND through the
session with an always-raising pipeline still succeeds end-to-end, storing
the pre-failure literal content and reporting the assigned uid. -/
theorem C7_pipeline_fault_containment :
    (∀ (p : Processor) (ps : List Processor) (ctx : Ctx) (e : String),
        p ctx = .error e → process_message (p :: ps) ctx = process_message ps ctx)
    ∧ (∀ (n : Nat) (ctx : Ctx),
        process_message (List.replicate n alwaysFail) ctx = ctx)
    ∧ (∀ (mgr : AuthManager) (sess : SessionState) (store : Store)
        (tag m lit : String) (content : Bytes),
        sess.authenticated = true →
        parseLiteral lit = some content.length →
        (append_message store (userOf sess) m content).2 ≠ 0 →
        handle_append ⟨mgr, [alwaysFail]⟩ sess store (content ++ [13, 10]) tag
            [m, lit] =
          ⟨[.line "+\r\n",
            IMAPResponseSerializer.ok tag ("APPEND completed [UID " ++
              toString (append_message store (userOf sess) m content).2 ++ "]")],
           sess, (append_message store (userOf sess) m content).1, [],
           .returned⟩) := by
  refine ⟨?_, ?_, ?_⟩
  · intro p ps ctx e h
    simp [process_message, h]
  · intro n ctx
    induction n with
    | zero => rfl
    | succ k ih => simp [List.replicate_succ, process_message, alwaysFail, ih]
  · intro mgr sess store tag m lit content hauth hlit huid
    have hlen : (content ++ [13, 10]).length = content.length + 2 := by simp
    have htake : (content ++ [13, 10]).take (content.length + 2) = content ++ [13, 10] :=
      List.take_of_length_le (by simp)
    have hdrop : (content ++ [13, 10]).drop (content.length + 2) = [] :=
      List.drop_of_length_le (by simp)
    have htake2 : (content ++ [13, 10]).take ((content ++ [13, 10]).length - 2)
        = content := by
      rw [hlen]
      exact List.take_left content [13, 10]
    simp only [handle_append, hauth, getLastD_pair]
    rw [hlit]
    simp only [List.length_cons, List.length_nil, List.headD]
    rw [if_neg (by simp [hauth]), if_neg (by simp), if_neg (by simp [hlen]),
      htake, htake2, hdrop]
    simp only [finishAppend, process_message, alwaysFail]
    rw [if_pos huid]
    rfl

/-- Witness for C7 at a concrete failing processor, context and append. -/
theorem C7_pipeline_witness :
    process_message [alwaysFail] ⟨[1], "INBOX", "test"⟩ =
        process_message [] ⟨[1], "INBOX", "test"⟩
    ∧ process_message (List.replicate 2 alwaysFail) ⟨[1], "INBOX", "test"⟩ =
        ⟨[1], "INBOX", "test"⟩
    ∧ handle_append ⟨defaultAuthManager, [alwaysFail]⟩ ⟨true, some "test", none, false⟩
        [] ([72, 105] ++ [13, 10]) "A1" ["INBOX", "\x7b2\x7d"] =
      ⟨[.line "+\r\n",
        IMAPResponseSerializer.ok "A1" ("APPEND completed [UID " ++
          toString (append_message ([] : Store) "test" "INBOX" [72, 105]).2 ++ "]")],
       ⟨true, some "test", none, false⟩,
       (append_message ([] : Store) "test" "INBOX" [72, 105]).1, [], .returned⟩ :=
  ⟨C7_pipeline_fault_containment.1 alwaysFail [] ⟨[1], "INBOX", "test"⟩
      "processor failure" rfl,
   C7_pipeline_fault_containment.2.1 2 ⟨[1], "INBOX", "test"⟩,
   C7_pipeline_fault_containment.2.2 defaultAuthManager ⟨true, some "test", none, false⟩
      [] "A1" "INBOX" "\x7b2\x7d" [72, 105] rfl (by decide) (by decide)⟩

/-- Claim C8 (counterexample): the claim as stated fails twice.  First,
`A1 COMMAND` is a well-formed line whose command is not a supported IMAP
command, yet the session closes the connection without sending any
response: the `getattr`-built handler name `handle_command` resolves to the
dispatcher itself and the wrong-arity call raises `TypeError` into the run
loop.  Second, even for `A1 NOSUCHCMD` the response actually sent is
`A1 Command not recognized or supported` — the serializer's `bad` emits
only the tag and the message, never a `BAD` token, so the claimed line
`A1 BAD Command not recognized or supported` is not what is sent. -/
theorem C8_counterexample_original_claim_false :
    runStep ⟨defaultAuthManager, []⟩ initialSession [] [] "A1 COMMAND" =
      ⟨[], initialSession, [], [], .close⟩
    ∧ (runStep ⟨defaultAuthManager, []⟩ initialSession [] [] "A1 NOSUCHCMD").sent =
      [.line "A1 Command not recognized or supported\r\n"]
    ∧ [Resp.line "A1 Command not recognized or supported\r\n"] ≠
      [Resp.line "A1 BAD Command not recognized or supported\r\n"] := by
  refine ⟨rfl, rfl, by decide⟩

/-- Claim C8 (amended): a line whose stripped form has no space (fewer than
two whitespace-delimited fields, so no tag) closes the connection without
any response; a well-formed line whose command is unrecognized — and whose
lower-cased name is not the colliding internal name `command` — gets the
single response line `tag ++ " Command not recognized or supported"` (the
serializer inserts no `BAD` token) with no session-state change. -/
theorem C8_malformed_and_unknown_commands :
    (∀ (d : Deps) (sess : SessionState) (store : Store) (stream : Bytes)
        (line : String), ' ' ∉ pyStrip line.data →
        runStep d sess store stream line = ⟨[], sess, store, stream, .close⟩)
    ∧ (∀ (d : Deps) (sess : SessionState) (store : Store) (stream : Bytes)
        (line tag command : String) (args : List String),
        parse (String.mk (pyStrip line.data)) = some (tag, command, args) →
        strLower command ∉ handlerNames →
        strLower command ≠ "command" →
        runStep d sess store stream line =
          ⟨[IMAPResponseSerializer.bad tag "Command not recognized or supported"],
           sess, store, stream, .continue_⟩) := by
  constructor
  · intro d sess store stream line h
    unfold runStep
    rw [parse_eq_none_of_noSpace _ h]
    simp [h]
  · intro d sess store stream line tag command args hp hmem hcmd
    unfold runStep
    rw [hp]
    simp only [handlerNames, List.mem_cons, List.not_mem_nil, or_false] at hmem
    push_neg at hmem
    obtain ⟨h1, h2, h3, h4, h5, h6, h7, h8, h9, h10, h11, h12, h13⟩ := hmem
    simp [dispatch, stepOfResult, handle_unknown_command,
      h1, h2, h3, h4, h5, h6, h7, h8, h9, h10, h11, h12, h13, hcmd]

/-- Witness for the amended C8 theorem at the spec's two example lines. -/
theorem C8_malformed_witness :
    runStep ⟨defaultAuthManager, []⟩ initialSession [] [] "onlyonetoken" =
      ⟨[], initialSession, [], [], .close⟩
    ∧ runStep ⟨defaultAuthManager, []⟩ initialSession [] [] "A1 NOSUCHCMD" =
      ⟨[IMAPResponseSerializer.bad "A1" "Command not recognized or supported"],
       initialSession, [], [], .continue_⟩ :=
  ⟨C8_malformed_and_unknown_commands.1 _ _ _ _ "onlyonetoken" (by decide),
   C8_malformed_and_unknown_commands.2 _ _ _ _ "A1 NOSUCHCMD" "A1" "NOSUCHCMD" []
     (by decide) (by decide) (by decide)⟩

/-- Claim C9: for every session state, tag and argument list, handling LSUB
produces exactly the same responses and the same state change as handling
LIST with the same tag and arguments — `handle_lsub` delegates verbatim. -/
theorem C9_lsub_delegates_to_list (d : Deps) (sess : SessionState) (store : Store)
    (stream : Bytes) (tag : String) (args : List String) :
    handle_lsub d sess store stream tag args =
      handle_list d sess store stream tag args :=
  rfl

/-- Claim C10: appending to an absent mailbox does not fail: the store first
creates the mailbox with fresh metadata `uidnext = 1, uidvalidity = 1`,
appends the message, and returns uid 1; afterwards the mailbox holds exactly
that message with `uidnext = 2` and `uidvalidity = 1`. -/
theorem C10_append_creates_missing_mailbox (s : Store) (u m : String) (B : Bytes)
    (h : findMailbox s u m = none) :
    (append_message s u m B).2 = 1
    ∧ findMailbox (append_message s u m B).1 u m = some ⟨2, 1, [(1, B)]⟩ := by
  unfold append_message create_mailbox
  simp [h, readMetadata, findMailbox_setMailbox, msgInsert]

/-- Witness for C10 on the empty store. -/
theorem C10_append_witness :
    (append_message ([] : Store) "test" "INBOX" [72, 105]).2 = 1
    ∧ findMailbox (append_message ([] : Store) "test" "INBOX" [72, 105]).1
        "test" "INBOX" = some ⟨2, 1, [(1, [72, 105])]⟩ :=
  C10_append_creates_missing_mailbox [] "test" "INBOX" [72, 105] rfl

end ImapMcpServer
